import Mathlib

/-!
Shallow embedding of the `rwc` Go package: a resettable ReadWriteCloser
(`ResReadWriteCloser`) wrapping an `io.ReadWriteCloser` behind an RWMutex,
with an atomic `uint64` generation counter (`count`) incremented on every
successful `Reset`.

Modelling conventions:
* An `io.ReadWriteCloser` interface value is modelled by `RWCRef`:
  `nilRef` (the Go `nil` interface), `self` (the wrapper itself, which
  implements the interface and can be passed to `Reset`), or `res id`
  (an external resource, identified by `id`; Go interface equality on
  stream handles is reference identity, modelled by equality of ids).
* The `uint64` counter is a `Nat` taken modulo `2 ^ 64` wherever the Go
  code performs arithmetic on it (`atomic.Uint64.Add` wraps).
* Outcomes of the underlying resource's read/write/close calls are opaque
  environment inputs: `Option Nat` (`none` = nil error, `some code` = some
  I/O error such as EOF or ErrClosedPipe).  The wrapper's own result space
  `Outcome` separates pass-through underlying outcomes from the package's
  sentinel errors (ErrRWCReset, ErrResetNil, ErrEqualToSelf, ErrEqual).
* `panic` in the constructor is modelled by `Option`: `none` = panic, so
  no wrapper value exists.
* Concurrency: the only shared mutable state is `rwc` (lock-protected) and
  `count` (atomic).  A `Read`/`Write` call performs three atomic loads of
  `count` (start snapshot, pre-check, post-check) with the resource
  snapshot taken under the read lock between the first two; a `Reset` is
  serialized by the exclusive lock and atomically bumps `count`.  An
  execution of one `Read`/`Write` racing any number of `Reset`s is
  therefore determined by how many resets complete in each gap between
  the call's atomic events; `Exec` records those gap counts and the
  environment-chosen snapshot resource and underlying result.
-/

namespace Rwc

/-- The modulus `2 ^ 64` of Go's `uint64` arithmetic used by the atomic
generation counter. -/
def uint64Mod : Nat := 2 ^ 64

/-- A Go `io.ReadWriteCloser` interface value as seen by the `rwc` package:
the nil interface, the wrapper itself, or an external resource identified
by `id` (interface equality on stream handles is reference identity). -/
inductive RWCRef where
  | nilRef : RWCRef
  | self : RWCRef
  | res (id : Nat) : RWCRef
deriving DecidableEq, Repr

/-- Result space of the wrapper's operations: `ok` is a nil error,
`ioError code` is an underlying resource outcome passed through unchanged,
and the four sentinel errors are the package's `errors.New` values
(`ErrRWCReset`, `ErrResetNil`, `ErrEqualToSelf`, `ErrEqual`). -/
inductive Outcome where
  | ok : Outcome
  | ioError (code : Nat) : Outcome
  | errRWCReset : Outcome
  | errResetNil : Outcome
  | errEqualToSelf : Outcome
  | errEqual : Outcome
deriving DecidableEq, Repr

/-- Injection of an underlying resource outcome (`none` = nil error) into
the wrapper's result space: pass-through. -/
def liftU : Option Nat → Outcome
  | none => Outcome.ok
  | some code => Outcome.ioError code

/-- The state of a `ResReadWriteCloser`: the currently installed resource
(field `rwc`) and the atomic generation counter (field `count`, a `uint64`
modelled as a `Nat` below `uint64Mod`). -/
structure ResReadWriteCloser where
  rwc : RWCRef
  count : Nat
deriving DecidableEq, Repr

/-- Constructor `NewResReadWriteCloser`: panics (`none`) on a nil resource, otherwise
returns the wrapper with the resource installed and the counter at 0. -/
def NewResReadWriteCloser (rwc : RWCRef) : Option ResReadWriteCloser :=
  if rwc = RWCRef.nilRef then none
  else some { rwc := rwc, count := 0 }

/-- Result of one `Read` or `Write` call: bytes transferred, outcome, and
which resource's underlying read/write was invoked (`none` when the call
returned before touching the resource). -/
structure RWResult where
  n : Nat
  err : Outcome
  invoked : Option RWCRef
deriving DecidableEq, Repr

/-- The body of `ResReadWriteCloser.Read`, parameterized by the three
atomic loads of `count` (`startCount` at entry, `preCheck` after the
resource snapshot, `postCheck` after the underlying call), the snapshotted
resource `reader`, and the underlying `reader.Read(p)` result `u`:
  if startCount ≠ preCheck, return (0, ErrRWCReset) without reading;
  otherwise run the underlying read; if startCount ≠ postCheck, return
  (n, ErrRWCReset), else return (n, err) unchanged. -/
def Read (startCount : Nat) (reader : RWCRef) (preCheck : Nat)
    (u : Nat × Option Nat) (postCheck : Nat) : RWResult :=
  if startCount ≠ preCheck then
    { n := 0, err := Outcome.errRWCReset, invoked := none }
  else if startCount ≠ postCheck then
    { n := u.1, err := Outcome.errRWCReset, invoked := some reader }
  else
    { n := u.1, err := liftU u.2, invoked := some reader }

/-- The body of `ResReadWriteCloser.Write`, identical in structure to
`Read` (three checkpoints, same detection rule) but invoking the
snapshotted resource's `Write`. -/
def Write (startCount : Nat) (writer : RWCRef) (preCheck : Nat)
    (u : Nat × Option Nat) (postCheck : Nat) : RWResult :=
  if startCount ≠ preCheck then
    { n := 0, err := Outcome.errRWCReset, invoked := none }
  else if startCount ≠ postCheck then
    { n := u.1, err := Outcome.errRWCReset, invoked := some writer }
  else
    { n := u.1, err := liftU u.2, invoked := some writer }

/-- Result of one `Reset` call: the wrapper state after the call, the
returned error (`ok` = nil), and which resource had `Close` invoked on it
during the reset (`none` when no close happened). -/
structure ResetResult where
  state : ResReadWriteCloser
  err : Outcome
  closed : Option RWCRef
deriving DecidableEq, Repr

/-- Method `ResReadWriteCloser.Reset`: rejects nil (`ErrResetNil`) and the wrapper
itself (`ErrEqualToSelf`) before taking the lock, rejects a resource equal
to the installed one (`ErrEqual`) under the lock, otherwise installs the
new resource, bumps the counter by 1 (uint64 wrap-around), and, when
`closeOld`, closes the old resource discarding its outcome
(`oldCloseErr`, which the result never depends on — `_ = old.Close()`). -/
def Reset (r : ResReadWriteCloser) (newRWC : RWCRef) (closeOld : Bool)
    (oldCloseErr : Option Nat) : ResetResult :=
  if newRWC = RWCRef.nilRef then
    { state := r, err := Outcome.errResetNil, closed := none }
  else if newRWC = RWCRef.self then
    { state := r, err := Outcome.errEqualToSelf, closed := none }
  else if r.rwc = newRWC then
    { state := r, err := Outcome.errEqual, closed := none }
  else
    { state := { rwc := newRWC, count := (r.count + 1) % uint64Mod }
      err := Outcome.ok
      closed := if closeOld then some r.rwc else none }

/-- Method `ResReadWriteCloser.Close`: under the read lock, calls `Close` on the
currently installed resource and returns its outcome unchanged; the
wrapper's own state is not modified.  `closeOutcome` is the environment:
what each resource's `Close` returns.  The result records the outcome, the
(unchanged) wrapper state, and which resource was closed. -/
def Close (r : ResReadWriteCloser) (closeOutcome : RWCRef → Option Nat) :
    Outcome × ResReadWriteCloser × RWCRef :=
  (liftU (closeOutcome r.rwc), r, r.rwc)

/-- Method `ResReadWriteCloser.ResetCount`: an atomic load of the generation
counter; a pure observer. -/
def ResetCount (r : ResReadWriteCloser) : Nat := r.count

/-- Method `ResReadWriteCloser.RWC`: returns the currently installed resource
under the read lock. -/
def RWC (r : ResReadWriteCloser) : RWCRef := r.rwc

/-! Trace model for one Read/Write racing concurrent Resets.

The wrapper's `Read` performs, in order: the atomic load of `startCount`
(event L0), the resource snapshot under the read lock (S), the pre-check
load (L1), the underlying `reader.Read(p)` call (U), and the post-check
load (L2).  Each successful concurrent `Reset` atomically increments
`count` by 1; since `Reset` holds the exclusive lock it cannot overlap S,
so a whole execution is determined by how many resets complete in each
gap.  `Exec` records: the counter value `g` before any of the traced
resets, `a` resets strictly before L0, `b` resets between L0 and L1,
`c` resets between L1 and L2 (including during U), `d` resets strictly
after L2, the snapshotted resource, and the underlying call's result. -/
structure Exec where
  g : Nat
  a : Nat
  b : Nat
  c : Nat
  d : Nat
  res : RWCRef
  u : Nat × Option Nat
deriving DecidableEq, Repr

/-- Counter value loaded at L0 (start snapshot). -/
def startGen (e : Exec) : Nat := (e.g + e.a) % uint64Mod

/-- Counter value loaded at L1 (pre-check). -/
def preGen (e : Exec) : Nat := (e.g + e.a + e.b) % uint64Mod

/-- Counter value loaded at L2 (post-check). -/
def postGen (e : Exec) : Nat := (e.g + e.a + e.b + e.c) % uint64Mod

/-- The result of a `Read` call in execution `e`. -/
def runRead (e : Exec) : RWResult :=
  Read (startGen e) e.res (preGen e) e.u (postGen e)

/-- The result of a `Write` call in execution `e`. -/
def runWrite (e : Exec) : RWResult :=
  Write (startGen e) e.res (preGen e) e.u (postGen e)

/-! Sequential operation sequences.

For the counter invariants we run the wrapper through an arbitrary
sequence of API calls.  Only `Reset` ever writes the wrapper's fields;
`Read`, `Write`, `Close`, `ResetCount` and `RWC` leave them unchanged
(the Go methods assign neither `r.rwc` nor `r.count`). -/
inductive Op where
  | opReset (newRWC : RWCRef) (closeOld : Bool) (oldCloseErr : Option Nat) : Op
  | opRead (u : Nat × Option Nat) : Op
  | opWrite (u : Nat × Option Nat) : Op
  | opClose (u : Option Nat) : Op
  | opResetCount : Op
deriving DecidableEq, Repr

/-- Wrapper state after one API call. -/
def step (s : ResReadWriteCloser) : Op → ResReadWriteCloser
  | Op.opReset newRWC closeOld e => (Reset s newRWC closeOld e).state
  | Op.opRead _ => s
  | Op.opWrite _ => s
  | Op.opClose _ => s
  | Op.opResetCount => s

/-- Wrapper state after a sequence of API calls. -/
def run (s : ResReadWriteCloser) : List Op → ResReadWriteCloser
  | [] => s
  | op :: rest => run (step s op) rest

/-- Whether an API call is a `Reset` that succeeds (returns nil) from
state `s`. -/
def successfulReset (s : ResReadWriteCloser) : Op → Bool
  | Op.opReset newRWC closeOld e =>
      decide ((Reset s newRWC closeOld e).err = Outcome.ok)
  | _ => false

/-- The number of successful `Reset`s in a sequence of API calls run from
state `s`. -/
def successfulResets (s : ResReadWriteCloser) : List Op → Nat
  | [] => 0
  | op :: rest =>
      (if successfulReset s op then 1 else 0) + successfulResets (step s op) rest

/-! Theorems settling the claims. -/

/-- C2. A `Read` or `Write` call during which no reset occurs — the
generation counter observed at all three checkpoints is unchanged —
returns exactly the byte count and outcome the underlying resource's
read/write produced (pass-through), having invoked the snapshotted
resource. -/
theorem no_reset_pass_through (e : Exec)
    (h1 : startGen e = preGen e) (h2 : startGen e = postGen e) :
    runRead e = { n := e.u.1, err := liftU e.u.2, invoked := some e.res } ∧
    runWrite e = { n := e.u.1, err := liftU e.u.2, invoked := some e.res } := by
  unfold runRead runWrite Read Write
  rw [if_neg (not_not_intro h1), if_neg (not_not_intro h2)]
  exact ⟨rfl, rfl⟩

theorem no_reset_pass_through_witness :
    startGen ⟨3, 0, 0, 0, 2, RWCRef.res 1, (5, none)⟩ =
      preGen ⟨3, 0, 0, 0, 2, RWCRef.res 1, (5, none)⟩ ∧
    runRead ⟨3, 0, 0, 0, 2, RWCRef.res 1, (5, none)⟩ =
      { n := 5, err := Outcome.ok, invoked := some (RWCRef.res 1) } :=
  ⟨by decide,
    (no_reset_pass_through ⟨3, 0, 0, 0, 2, RWCRef.res 1, (5, none)⟩
      (by decide) (by decide)).1⟩

/-- C1. A `Read` or `Write` call whose underlying call was invoked
(the pre-check observed no counter change) and which observes a
generation-counter change at the post-check returns `ErrRWCReset`
together with exactly the byte count the underlying call transferred,
discarding the underlying call's own outcome — whatever it was,
including success (`none`) or a clean end-of-stream error code. -/
theorem reset_observed_after_underlying_keeps_count (e : Exec)
    (h1 : startGen e = preGen e) (h2 : startGen e ≠ postGen e) :
    runRead e = { n := e.u.1, err := Outcome.errRWCReset, invoked := some e.res } ∧
    runWrite e = { n := e.u.1, err := Outcome.errRWCReset, invoked := some e.res } := by
  unfold runRead runWrite Read Write
  rw [if_neg (not_not_intro h1), if_pos h2]
  exact ⟨rfl, rfl⟩

theorem reset_observed_after_underlying_keeps_count_witness :
    startGen ⟨0, 0, 0, 1, 0, RWCRef.res 1, (5, none)⟩ =
      preGen ⟨0, 0, 0, 1, 0, RWCRef.res 1, (5, none)⟩ ∧
    runRead ⟨0, 0, 0, 1, 0, RWCRef.res 1, (5, none)⟩ =
      { n := 5, err := Outcome.errRWCReset, invoked := some (RWCRef.res 1) } :=
  ⟨by decide,
    (reset_observed_after_underlying_keeps_count
      ⟨0, 0, 0, 1, 0, RWCRef.res 1, (5, none)⟩ (by decide) (by decide)).1⟩

/-- C6, counterexample to the claim as stated. A reset that completes
strictly before the `Read` begins (one reset in gap `a`, none during the
call) does *not* make the `Read` return `(0, ErrRWCReset)`: all three
checkpoints then load the already-bumped counter, so the call passes
through the (new) resource's result — here `(5, ok)` with the resource
invoked. -/
theorem reset_before_read_begins_counterexample :
    runRead ⟨0, 1, 0, 0, 0, RWCRef.res 2, (5, none)⟩ ≠
      { n := 0, err := Outcome.errRWCReset, invoked := none } := by
  decide

/-- C6, amended. If a reset is observed by the pre-check — it occurred
after the call loaded its starting generation but strictly before the
underlying read/write was invoked — the `Read`/`Write` returns
`(0, ErrRWCReset)` without invoking any resource's read/write. -/
theorem reset_detected_before_underlying_returns_zero (e : Exec)
    (h : startGen e ≠ preGen e) :
    runRead e = { n := 0, err := Outcome.errRWCReset, invoked := none } ∧
    runWrite e = { n := 0, err := Outcome.errRWCReset, invoked := none } := by
  unfold runRead runWrite Read Write
  rw [if_pos h]
  exact ⟨rfl, rfl⟩

theorem reset_detected_before_underlying_returns_zero_witness :
    startGen ⟨0, 0, 1, 0, 0, RWCRef.res 1, (5, none)⟩ ≠
      preGen ⟨0, 0, 1, 0, 0, RWCRef.res 1, (5, none)⟩ ∧
    runRead ⟨0, 0, 1, 0, 0, RWCRef.res 1, (5, none)⟩ =
      { n := 0, err := Outcome.errRWCReset, invoked := none } :=
  ⟨by decide,
    (reset_detected_before_underlying_returns_zero
      ⟨0, 0, 1, 0, 0, RWCRef.res 1, (5, none)⟩ (by decide)).1⟩

/-- C7, counterexample to the claim as stated. A reset that occurs
strictly after the underlying call returned but before the post-check
load (one reset in gap `c`) *is* reported: the `Read` returns
`(5, ErrRWCReset)`, not the underlying outcome `(5, ioError 0)` — so a
reset strictly after the underlying call returns can still change the
result. -/
theorem reset_after_underlying_detected_counterexample :
    runRead ⟨0, 0, 0, 1, 0, RWCRef.res 1, (5, some 0)⟩ ≠
      { n := 5, err := liftU (some 0), invoked := some (RWCRef.res 1) } := by
  decide

/-- C7, amended. The result of a `Read`/`Write` never depends on
resets that occur strictly after its final generation check (gap `d`),
and when every reset concurrent with the call falls after that final
check — all three checkpoints observe the same generation — the call
returns exactly the underlying byte count and outcome (no false
positive). -/
theorem reset_after_final_check_no_effect (e : Exec) (d' : Nat) :
    runRead { e with d := d' } = runRead e ∧
    runWrite { e with d := d' } = runWrite e ∧
    (startGen e = preGen e → startGen e = postGen e →
      runRead e = { n := e.u.1, err := liftU e.u.2, invoked := some e.res } ∧
      runWrite e = { n := e.u.1, err := liftU e.u.2, invoked := some e.res }) := by
  refine ⟨rfl, rfl, ?_⟩
  intro h1 h2
  unfold runRead runWrite Read Write
  rw [if_neg (not_not_intro h1), if_neg (not_not_intro h2)]
  exact ⟨rfl, rfl⟩

theorem reset_after_final_check_no_effect_witness :
    runRead ⟨7, 0, 0, 0, 4, RWCRef.res 3, (2, some 0)⟩ =
      { n := 2, err := Outcome.ioError 0, invoked := some (RWCRef.res 3) } :=
  ((reset_after_final_check_no_effect ⟨7, 0, 0, 0, 4, RWCRef.res 3, (2, some 0)⟩
      4).2.2 (by decide) (by decide)).1

/-- C3. A `Reset` with a resource that is non-nil, not the wrapper itself,
and not equal to the installed one succeeds: it returns nil, installs the
new resource (`RWC` subsequently returns it), bumps the counter by 1
(exactly 1 whenever the `uint64` does not wrap, i.e. below `2 ^ 64 - 1`,
which the package assumes is never reached), closes the old resource
exactly when `closeOld` is set, and its entire result is independent of
the old resource's close outcome — success is returned even if that close
fails. -/
theorem reset_success_installs_and_increments (r : ResReadWriteCloser)
    (newRWC : RWCRef) (closeOld : Bool) (e e' : Option Nat)
    (h1 : newRWC ≠ RWCRef.nilRef) (h2 : newRWC ≠ RWCRef.self)
    (h3 : newRWC ≠ r.rwc) :
    (Reset r newRWC closeOld e).err = Outcome.ok ∧
    RWC (Reset r newRWC closeOld e).state = newRWC ∧
    (Reset r newRWC closeOld e).state.count = (r.count + 1) % uint64Mod ∧
    (r.count + 1 < uint64Mod →
      (Reset r newRWC closeOld e).state.count = r.count + 1) ∧
    (closeOld = true → (Reset r newRWC closeOld e).closed = some r.rwc) ∧
    Reset r newRWC closeOld e = Reset r newRWC closeOld e' := by
  have hmain : Reset r newRWC closeOld e =
      ⟨⟨newRWC, (r.count + 1) % uint64Mod⟩, Outcome.ok,
        if closeOld then some r.rwc else none⟩ := by
    unfold Reset
    rw [if_neg h1, if_neg h2, if_neg (fun hh => h3 hh.symm)]
  refine ⟨by rw [hmain], by rw [hmain]; rfl, by rw [hmain], ?_, ?_, rfl⟩
  · intro hlt
    rw [hmain]
    exact Nat.mod_eq_of_lt hlt
  · intro hc
    rw [hmain]
    simp [hc]

theorem reset_success_installs_and_increments_witness :
    (Reset ⟨RWCRef.res 0, 0⟩ (RWCRef.res 1) true (some 7)).err = Outcome.ok ∧
    Reset ⟨RWCRef.res 0, 0⟩ (RWCRef.res 1) true (some 7) =
      Reset ⟨RWCRef.res 0, 0⟩ (RWCRef.res 1) true none :=
  ⟨(reset_success_installs_and_increments ⟨RWCRef.res 0, 0⟩ (RWCRef.res 1)
      true (some 7) none (by decide) (by decide) (by decide)).1,
    (reset_success_installs_and_increments ⟨RWCRef.res 0, 0⟩ (RWCRef.res 1)
      true (some 7) none (by decide) (by decide) (by decide)).2.2.2.2.2⟩

/-- C4. `Reset` returns `ErrResetNil` on a nil resource, `ErrEqualToSelf`
on the wrapper itself, and `ErrEqual` on a resource equal to the installed
one; in all three cases the wrapper state (installed resource and
generation counter) is returned unchanged and nothing is closed
(all-or-nothing). -/
theorem reset_rejections_leave_state_unchanged (r : ResReadWriteCloser)
    (closeOld : Bool) (e : Option Nat) :
    Reset r RWCRef.nilRef closeOld e = ⟨r, Outcome.errResetNil, none⟩ ∧
    Reset r RWCRef.self closeOld e = ⟨r, Outcome.errEqualToSelf, none⟩ ∧
    (∀ newRWC, newRWC ≠ RWCRef.nilRef → newRWC ≠ RWCRef.self →
      newRWC = r.rwc →
      Reset r newRWC closeOld e = ⟨r, Outcome.errEqual, none⟩) := by
  refine ⟨rfl, rfl, ?_⟩
  intro newRWC h1 h2 h3
  unfold Reset
  rw [if_neg h1, if_neg h2, if_pos h3.symm]

theorem reset_rejections_leave_state_unchanged_witness :
    Reset ⟨RWCRef.res 1, 0⟩ (RWCRef.res 1) true none =
      ⟨⟨RWCRef.res 1, 0⟩, Outcome.errEqual, none⟩ :=
  (reset_rejections_leave_state_unchanged ⟨RWCRef.res 1, 0⟩ true
      none).2.2 (RWCRef.res 1) (by decide) (by decide) rfl

/-- C10. `Reset` invokes `Close` on at most one resource, namely the
previously installed one, and does so exactly when the reset succeeds
(returns nil) and `closeOld` is set; every rejected reset and every
successful reset with `closeOld = false` closes nothing. -/
theorem reset_closes_at_most_old (r : ResReadWriteCloser) (newRWC : RWCRef)
    (closeOld : Bool) (e : Option Nat) :
    (Reset r newRWC closeOld e).closed =
      (if (Reset r newRWC closeOld e).err = Outcome.ok ∧ closeOld = true
        then some r.rwc else none) := by
  unfold Reset
  by_cases h1 : newRWC = RWCRef.nilRef
  · rw [if_pos h1]
    simp
  · rw [if_neg h1]
    by_cases h2 : newRWC = RWCRef.self
    · rw [if_pos h2]
      simp
    · rw [if_neg h2]
      by_cases h3 : r.rwc = newRWC
      · rw [if_pos h3]
        simp
      · rw [if_neg h3]
        by_cases h4 : closeOld = true
        · simp [h4]
        · simp [h4]

/-- Helper: one API call never installs the nil resource (the only write
to `rwc` is in `Reset`, which rejects nil before installing). -/
theorem step_preserves_nonnil (s : ResReadWriteCloser) (op : Op)
    (h : s.rwc ≠ RWCRef.nilRef) : (step s op).rwc ≠ RWCRef.nilRef := by
  cases op with
  | opReset newRWC closeOld e =>
      show (Reset s newRWC closeOld e).state.rwc ≠ RWCRef.nilRef
      unfold Reset
      by_cases h1 : newRWC = RWCRef.nilRef
      · rw [if_pos h1]
        exact h
      · rw [if_neg h1]
        by_cases h2 : newRWC = RWCRef.self
        · rw [if_pos h2]
          exact h
        · rw [if_neg h2]
          by_cases h3 : s.rwc = newRWC
          · rw [if_pos h3]
            exact h
          · rw [if_neg h3]
            exact h1
  | opRead u => exact h
  | opWrite u => exact h
  | opClose u => exact h
  | opResetCount => exact h

/-- Helper: along any sequence of API calls the installed resource stays
non-nil. -/
theorem run_preserves_nonnil (ops : List Op) :
    ∀ s : ResReadWriteCloser, s.rwc ≠ RWCRef.nilRef →
      (run s ops).rwc ≠ RWCRef.nilRef := by
  induction ops with
  | nil => exact fun s h => h
  | cons op rest ih =>
      exact fun s h => ih (step s op) (step_preserves_nonnil s op h)

/-- C8. Constructing the wrapper with the nil resource panics (`none`) —
no wrapper value escapes — while constructing with any non-nil resource
succeeds and installs that resource with the counter at 0; moreover, from
any such wrapper, no sequence of API calls ever leads to a state whose
installed resource is nil, so Read, Write and Close are never attempted
against an absent resource. -/
theorem construct_nil_panics_nonnil_installs (rwc : RWCRef)
    (h : rwc ≠ RWCRef.nilRef) :
    NewResReadWriteCloser RWCRef.nilRef = none ∧
    NewResReadWriteCloser rwc = some ⟨rwc, 0⟩ ∧
    (∀ s ops, NewResReadWriteCloser rwc = some s →
      (run s ops).rwc ≠ RWCRef.nilRef) := by
  have hc : NewResReadWriteCloser rwc = some ⟨rwc, 0⟩ := by
    unfold NewResReadWriteCloser
    rw [if_neg h]
  refine ⟨rfl, hc, ?_⟩
  intro s ops hs
  rw [hc] at hs
  obtain rfl : (⟨rwc, 0⟩ : ResReadWriteCloser) = s := Option.some.inj hs
  exact run_preserves_nonnil ops ⟨rwc, 0⟩ h

theorem construct_nil_panics_nonnil_installs_witness :
    NewResReadWriteCloser RWCRef.nilRef = none ∧
    NewResReadWriteCloser (RWCRef.res 0) = some ⟨RWCRef.res 0, 0⟩ ∧
    (run ⟨RWCRef.res 0, 0⟩ [Op.opReset (RWCRef.res 1) true none]).rwc ≠
      RWCRef.nilRef :=
  ⟨(construct_nil_panics_nonnil_installs (RWCRef.res 0) (by decide)).1,
    (construct_nil_panics_nonnil_installs (RWCRef.res 0) (by decide)).2.1,
    (construct_nil_panics_nonnil_installs (RWCRef.res 0) (by decide)).2.2
      ⟨RWCRef.res 0, 0⟩ [Op.opReset (RWCRef.res 1) true none] (by decide)⟩

/-- C9. `Close` returns exactly the outcome produced by the currently
installed resource's close call; that pass-through outcome is never
`ErrRWCReset` (the reset sentinel is not in the image of `liftU`: Close
does not participate in reset detection); the wrapper's own state is left
unchanged, the close is invoked on the installed resource, and the wrapper
afterwards still accepts any valid `Reset` (returns nil on any non-nil,
non-self resource different from the installed one). -/
theorem close_passes_through_underlying (r : ResReadWriteCloser)
    (closeOutcome : RWCRef → Option Nat) :
    (Close r closeOutcome).1 = liftU (closeOutcome (RWC r)) ∧
    (Close r closeOutcome).1 ≠ Outcome.errRWCReset ∧
    (Close r closeOutcome).2.1 = r ∧
    (Close r closeOutcome).2.2 = RWC r ∧
    (∀ newRWC closeOld e, newRWC ≠ RWCRef.nilRef → newRWC ≠ RWCRef.self →
      newRWC ≠ ((Close r closeOutcome).2.1).rwc →
      (Reset (Close r closeOutcome).2.1 newRWC closeOld e).err =
        Outcome.ok) := by
  refine ⟨rfl, ?_, rfl, rfl, ?_⟩
  · show liftU (closeOutcome r.rwc) ≠ Outcome.errRWCReset
    cases closeOutcome r.rwc with
    | none => exact fun hh => Outcome.noConfusion hh
    | some code => exact fun hh => Outcome.noConfusion hh
  · intro newRWC closeOld e h1 h2 h3
    show (Reset r newRWC closeOld e).err = Outcome.ok
    unfold Reset
    rw [if_neg h1, if_neg h2, if_neg (fun hh => h3 hh.symm)]

theorem close_passes_through_underlying_witness :
    (Close ⟨RWCRef.res 0, 0⟩ (fun _ => some 1)).1 = Outcome.ioError 1 ∧
    (Reset (Close ⟨RWCRef.res 0, 0⟩ (fun _ => some 1)).2.1 (RWCRef.res 1)
        true none).err = Outcome.ok :=
  ⟨(close_passes_through_underlying ⟨RWCRef.res 0, 0⟩ (fun _ => some 1)).1,
    (close_passes_through_underlying ⟨RWCRef.res 0, 0⟩
        (fun _ => some 1)).2.2.2.2 (RWCRef.res 1) true none
      (by decide) (by decide) (by decide)⟩

/-- Helper: the modulus of the `uint64` counter is positive. -/
theorem uint64Mod_pos : 0 < uint64Mod := by
  unfold uint64Mod
  norm_num

/-- Helper: one API call changes the counter by exactly the success bit of
that call (rejected resets and all non-reset operations leave it alone;
a successful reset bumps it by 1 modulo `2 ^ 64`), and the counter stays
below the modulus. -/
theorem step_count (s : ResReadWriteCloser) (op : Op)
    (hs : s.count < uint64Mod) :
    (step s op).count =
      (s.count + (if successfulReset s op then 1 else 0)) % uint64Mod ∧
    (step s op).count < uint64Mod := by
  cases op with
  | opReset newRWC closeOld e =>
      by_cases h1 : newRWC = RWCRef.nilRef
      · have hR : Reset s newRWC closeOld e = ⟨s, Outcome.errResetNil, none⟩ := by
          unfold Reset
          rw [if_pos h1]
        constructor
        · simp [step, successfulReset, hR, Nat.mod_eq_of_lt hs]
        · simpa [step, hR] using hs
      · by_cases h2 : newRWC = RWCRef.self
        · have hR : Reset s newRWC closeOld e =
              ⟨s, Outcome.errEqualToSelf, none⟩ := by
            unfold Reset
            rw [if_neg h1, if_pos h2]
          constructor
          · simp [step, successfulReset, hR, Nat.mod_eq_of_lt hs]
          · simpa [step, hR] using hs
        · by_cases h3 : s.rwc = newRWC
          · have hR : Reset s newRWC closeOld e =
                ⟨s, Outcome.errEqual, none⟩ := by
              unfold Reset
              rw [if_neg h1, if_neg h2, if_pos h3]
            constructor
            · simp [step, successfulReset, hR, Nat.mod_eq_of_lt hs]
            · simpa [step, hR] using hs
          · have hR : Reset s newRWC closeOld e =
                ⟨⟨newRWC, (s.count + 1) % uint64Mod⟩, Outcome.ok,
                  if closeOld then some s.rwc else none⟩ := by
              unfold Reset
              rw [if_neg h1, if_neg h2, if_neg h3]
            constructor
            · simp [step, successfulReset, hR]
            · simp only [step, hR]
              exact Nat.mod_lt _ uint64Mod_pos
  | opRead u =>
      exact ⟨by simp [step, successfulReset, Nat.mod_eq_of_lt hs], hs⟩
  | opWrite u =>
      exact ⟨by simp [step, successfulReset, Nat.mod_eq_of_lt hs], hs⟩
  | opClose u =>
      exact ⟨by simp [step, successfulReset, Nat.mod_eq_of_lt hs], hs⟩
  | opResetCount =>
      exact ⟨by simp [step, successfulReset, Nat.mod_eq_of_lt hs], hs⟩

/-- Helper: along any sequence of API calls, the counter equals its
starting value plus the number of successful resets, modulo `2 ^ 64`,
and stays below the modulus. -/
theorem run_count (ops : List Op) :
    ∀ s : ResReadWriteCloser, s.count < uint64Mod →
      (run s ops).count = (s.count + successfulResets s ops) % uint64Mod ∧
      (run s ops).count < uint64Mod := by
  induction ops with
  | nil =>
      intro s hs
      exact ⟨by simp [run, successfulResets, Nat.mod_eq_of_lt hs], hs⟩
  | cons op rest ih =>
      intro s hs
      obtain ⟨h1, h2⟩ := step_count s op hs
      obtain ⟨h3, h4⟩ := ih (step s op) h2
      refine ⟨?_, h4⟩
      show (run (step s op) rest).count = _
      rw [h3, h1, Nat.mod_add_mod]
      have hflat : successfulResets s (op :: rest) =
          (if successfulReset s op then 1 else 0) +
            successfulResets (step s op) rest := rfl
      rw [hflat, Nat.add_assoc]

/-- Helper: successful resets over a concatenation split at the
intermediate state. -/
theorem successfulResets_append (pre : List Op) :
    ∀ (suf : List Op) (s : ResReadWriteCloser),
      successfulResets s (pre ++ suf) =
        successfulResets s pre + successfulResets (run s pre) suf := by
  induction pre with
  | nil =>
      intro suf s
      simp [successfulResets, run]
  | cons op rest ih =>
      intro suf s
      show (if successfulReset s op then 1 else 0) +
          successfulResets (step s op) (rest ++ suf) = _
      rw [ih suf (step s op)]
      show _ = (if successfulReset s op then 1 else 0) +
          successfulResets (step s op) rest +
          successfulResets (run (step s op) rest) suf
      rw [Nat.add_assoc]

/-- C5. The generation counter starts at 0 on construction; along any
sequence of API calls in which the number of successful resets stays below
`2 ^ 64` (the package assumes the `uint64` never wraps), `ResetCount`
equals exactly the number of successful `Reset`s performed so far — so
each successful reset increments it by exactly 1, no other operation
changes it, and it never decreases (its value after any prefix is at most
its final value); `ResetCount` itself is a pure observer with no side
effects (running it as an operation leaves the state untouched). -/
theorem reset_count_equals_successful_resets (i : Nat)
    (ops pre suf : List Op)
    (hw : successfulResets ⟨RWCRef.res i, 0⟩ ops < uint64Mod)
    (hsplit : ops = pre ++ suf) :
    ResetCount (⟨RWCRef.res i, 0⟩ : ResReadWriteCloser) = 0 ∧
    ResetCount (run ⟨RWCRef.res i, 0⟩ ops) =
      successfulResets ⟨RWCRef.res i, 0⟩ ops ∧
    ResetCount (run ⟨RWCRef.res i, 0⟩ pre) ≤
      ResetCount (run ⟨RWCRef.res i, 0⟩ ops) ∧
    run (run ⟨RWCRef.res i, 0⟩ ops) [Op.opResetCount] =
      run ⟨RWCRef.res i, 0⟩ ops := by
  have hz : (⟨RWCRef.res i, 0⟩ : ResReadWriteCloser).count < uint64Mod :=
    uint64Mod_pos
  have hfull := run_count ops ⟨RWCRef.res i, 0⟩ hz
  have hcount : ResetCount (run ⟨RWCRef.res i, 0⟩ ops) =
      successfulResets ⟨RWCRef.res i, 0⟩ ops := by
    show (run ⟨RWCRef.res i, 0⟩ ops).count = _
    rw [hfull.1, Nat.zero_add, Nat.mod_eq_of_lt hw]
  have hprele : successfulResets ⟨RWCRef.res i, 0⟩ pre ≤
      successfulResets ⟨RWCRef.res i, 0⟩ ops := by
    rw [hsplit, successfulResets_append pre suf ⟨RWCRef.res i, 0⟩]
    exact Nat.le_add_right _ _
  have hpre := run_count pre ⟨RWCRef.res i, 0⟩ hz
  have hcountpre : ResetCount (run ⟨RWCRef.res i, 0⟩ pre) =
      successfulResets ⟨RWCRef.res i, 0⟩ pre := by
    show (run ⟨RWCRef.res i, 0⟩ pre).count = _
    rw [hpre.1, Nat.zero_add, Nat.mod_eq_of_lt (Nat.lt_of_le_of_lt hprele hw)]
  refine ⟨rfl, hcount, ?_, rfl⟩
  rw [hcount, hcountpre]
  exact hprele

theorem reset_count_equals_successful_resets_witness :
    successfulResets ⟨RWCRef.res 0, 0⟩
        [Op.opReset (RWCRef.res 1) true none,
          Op.opRead (3, none), Op.opReset RWCRef.nilRef false none] <
      uint64Mod ∧
    ResetCount (run ⟨RWCRef.res 0, 0⟩
        [Op.opReset (RWCRef.res 1) true none,
          Op.opRead (3, none), Op.opReset RWCRef.nilRef false none]) =
      successfulResets ⟨RWCRef.res 0, 0⟩
        [Op.opReset (RWCRef.res 1) true none,
          Op.opRead (3, none), Op.opReset RWCRef.nilRef false none] :=
  ⟨by decide,
    (reset_count_equals_successful_resets 0
      [Op.opReset (RWCRef.res 1) true none,
        Op.opRead (3, none), Op.opReset RWCRef.nilRef false none]
      [] [Op.opReset (RWCRef.res 1) true none,
        Op.opRead (3, none), Op.opReset RWCRef.nilRef false none]
      (by decide) rfl).2.1⟩

end Rwc

